import Mathlib

/-
Verification development for the wingfall arcade-shooter simulation core.

The Rust source is shallowly embedded: f32/f64 quantities become exact
rationals (ℚ), i32 fields become ℤ, u8/u32 fields become ℕ, fallible
operations return Except, and the wall clock (get_time()) is passed as an
explicit `now : ℚ` argument.  Field and function names follow src/save.rs,
src/main.rs and src/model.rs.
-/

namespace Wingfall

/-- Two-dimensional vector with rational coordinates (embeds macroquad Vec2). -/
structure Vec2 where
  x : ℚ
  y : ℚ
deriving Repr, DecidableEq

/-- Axis-aligned rectangle, position of top-left corner plus width and height
(embeds macroquad Rect). -/
structure Rect where
  x : ℚ
  y : ℚ
  w : ℚ
  h : ℚ
deriving Repr, DecidableEq

/-- Rust clamp: v.clamp(lo, hi), assuming lo ≤ hi. -/
def clampQ (v lo hi : ℚ) : ℚ :=
  min (max v lo) hi

/-- Bullet firing patterns, from enum BulletMode in src/main.rs. -/
inductive BulletMode where
  | Normal
  | Double
  | Triple
  | Spread
  | Laser
deriving Repr, DecidableEq

/-- Treasure kinds, from enum TreasureKind in src/main.rs. -/
inductive TreasureKind where
  | BulletUpgradePermanent
  | MaxLifePermanent
  | LifePlus
  | InvincibleTimed
  | SpreadTimed
  | LaserTimed
deriving Repr, DecidableEq

/-- Durable permanent upgrades, from struct PermanentUpgrades in src/save.rs
(u8 fields embedded as ℕ). -/
structure PermanentUpgrades where
  bullet_level : ℕ
  max_lives : ℕ
deriving Repr, DecidableEq

/-- Player profile, from struct PlayerProfile in src/save.rs. -/
structure PlayerProfile where
  username : String
  plane_style : ℕ
  permanent : PermanentUpgrades
deriving Repr, DecidableEq

/-- One leaderboard line, from struct ScoreEntry in src/save.rs (u32 score as ℕ). -/
structure ScoreEntry where
  username : String
  score : ℕ
deriving Repr, DecidableEq

/-- Leaderboard, from struct Leaderboard in src/save.rs. -/
structure Leaderboard where
  entries : List ScoreEntry
deriving Repr, DecidableEq

/-- Transient per-run player entity, from struct Player in src/main.rs. -/
structure Player where
  pos : Vec2
  size : Vec2
  lives : ℤ
  max_lives : ℤ
  speed : ℚ
  invincible_until : ℚ
  shot_cooldown : ℚ
  shot_timer : ℚ
  base_bullet_level : ℕ
  manual_mode : Option BulletMode
  temp_mode : Option (BulletMode × ℚ)
deriving Repr, DecidableEq

/-- Player collision rectangle, from Player::rect in src/main.rs. -/
def Player.rect (p : Player) : Rect :=
  ⟨p.pos.x - p.size.x * (1/2), p.pos.y - p.size.y * (1/2), p.size.x, p.size.y⟩

/-- Invincibility query, from Player::is_invincible: get_time() < invincible_until. -/
def Player.isInvincible (p : Player) (now : ℚ) : Bool :=
  now < p.invincible_until

/-- Manual-mode / base-level fallback of Player::bullet_mode (the code after
the temp_mode check in src/main.rs lines 82-89). -/
def Player.bullet_mode_tail (p : Player) : BulletMode :=
  match p.manual_mode with
  | some mode => mode
  | none =>
      match p.base_bullet_level with
      | 1 => BulletMode.Normal
      | 2 => BulletMode.Double
      | _ => BulletMode.Triple

/-- Bullet-mode resolution, from Player::bullet_mode in src/main.rs lines 76-90:
an unexpired temp_mode wins, else manual_mode, else the pattern derived from
base_bullet_level (1 gives Normal, 2 gives Double, anything else Triple). -/
def Player.bullet_mode (p : Player) (now : ℚ) : BulletMode :=
  match p.temp_mode with
  | some (mode, until_) =>
      if now ≤ until_ then mode
      else p.bullet_mode_tail
  | none => p.bullet_mode_tail

/-- Enemy entity, from struct Enemy in src/main.rs. -/
structure Enemy where
  pos : Vec2
  size : Vec2
  vel : Vec2
  hp : ℤ
  shot_timer : ℚ
deriving Repr, DecidableEq

/-- Enemy collision rectangle, from Enemy::rect in src/main.rs. -/
def Enemy.rect (e : Enemy) : Rect :=
  ⟨e.pos.x - e.size.x * (1/2), e.pos.y - e.size.y * (1/2), e.size.x, e.size.y⟩

/-- Bullet entity, from struct Bullet in src/main.rs. -/
structure Bullet where
  pos : Vec2
  vel : Vec2
  radius : ℚ
  damage : ℤ
  from_player : Bool
deriving Repr, DecidableEq

/-- Cosmetic particle, from struct Particle in src/main.rs (render-only color
field omitted). -/
structure Particle where
  pos : Vec2
  vel : Vec2
  radius : ℚ
  life : ℚ
deriving Repr, DecidableEq

/-- Falling treasure entity, from struct Treasure in src/main.rs. -/
structure Treasure where
  pos : Vec2
  vel : Vec2
  kind : TreasureKind
  radius : ℚ
deriving Repr, DecidableEq

/-- Run-scoped aggregate, from struct Game in src/main.rs. -/
structure Game where
  player : Player
  bullets : List Bullet
  enemies : List Enemy
  treasures : List Treasure
  particles : List Particle
  score : ℕ
  enemy_spawn_timer : ℚ
  enemy_spawn_interval : ℚ
  game_over_cooldown : ℚ
  just_saved_score : Bool
  auto_fire : Bool

/-- Screen width constant SCREEN_W from src/main.rs. -/
def SCREEN_W : ℚ := 480

/-- Screen height constant SCREEN_H from src/main.rs. -/
def SCREEN_H : ℚ := 720

/-- Fresh run construction, from Game::new in src/main.rs lines 179-209:
max_lives is the profile value floored at 1, lives starts at max_lives, and
base_bullet_level is the profile bullet level clamped into 1..3. -/
def Game.new (profile : PlayerProfile) : Game :=
  let max_lives : ℤ := ↑(max profile.permanent.max_lives 1)
  let player : Player :=
    { pos := ⟨SCREEN_W * (1/2), SCREEN_H - 70⟩
      size := ⟨32, 40⟩
      lives := max_lives
      max_lives := max_lives
      speed := 320
      invincible_until := 0
      shot_cooldown := 14/100
      shot_timer := 0
      base_bullet_level := min (max profile.permanent.bullet_level 1) 3
      manual_mode := none
      temp_mode := none }
  { player := player
    bullets := []
    enemies := []
    treasures := []
    particles := []
    score := 0
    enemy_spawn_timer := 0
    enemy_spawn_interval := 85/100
    game_over_cooldown := 0
    just_saved_score := false
    auto_fire := false }

/-- Circle-vs-rectangle hit test, from circle_hits_rect in src/main.rs lines
321-327: clamp the circle center into the rectangle and compare the squared
distance to the squared radius. -/
def circle_hits_rect (center : Vec2) (radius : ℚ) (rect : Rect) : Bool :=
  let cx := clampQ center.x rect.x (rect.x + rect.w)
  let cy := clampQ center.y rect.y (rect.y + rect.h)
  let dx := center.x - cx
  let dy := center.y - cy
  dx * dx + dy * dy ≤ radius * radius

/-- Leaderboard comparator used by record_score: sort_by(|a, b| b.score.cmp(a.score)),
i.e. an entry precedes another when its score is at least as large. -/
def score_desc (a b : ScoreEntry) : Bool :=
  b.score ≤ a.score

/-- Leaderboard mutation, from record_score in src/main.rs lines 329-336:
push the new entry, re-sort by score descending (stable), truncate to 20. -/
def record_score (lb : Leaderboard) (username : String) (score : ℕ) : Leaderboard :=
  ⟨(((lb.entries ++ [ScoreEntry.mk username score]).mergeSort score_desc).take 20)⟩

/-- Treasure pickup effect, from apply_treasure in src/main.rs lines 338-371.
Returns the mutated profile and player, and a flag that is true exactly when
the source issued store.save_profile (the durable write). -/
def apply_treasure (now : ℚ) (profile : PlayerProfile) (player : Player)
    (kind : TreasureKind) : PlayerProfile × Player × Bool :=
  match kind with
  | TreasureKind.BulletUpgradePermanent =>
      let bl := min (profile.permanent.bullet_level + 1) 3
      let profile := { profile with permanent := { profile.permanent with bullet_level := bl } }
      let player := { player with base_bullet_level := bl }
      (profile, player, true)
  | TreasureKind.MaxLifePermanent =>
      let ml := min (profile.permanent.max_lives + 1) 9
      let profile := { profile with permanent := { profile.permanent with max_lives := ml } }
      let new_max : ℤ := ↑ml
      let player := { player with
        max_lives := new_max
        lives := min (player.lives + 1) new_max }
      (profile, player, true)
  | TreasureKind.LifePlus =>
      (profile, { player with lives := min (player.lives + 1) player.max_lives }, false)
  | TreasureKind.InvincibleTimed =>
      (profile, { player with invincible_until := now + 5 }, false)
  | TreasureKind.SpreadTimed =>
      (profile, { player with temp_mode := some (BulletMode.Spread, now + 9) }, false)
  | TreasureKind.LaserTimed =>
      (profile, { player with temp_mode := some (BulletMode.Laser, now + 6) }, false)

/-- Drop-table roll mapping, from maybe_drop_treasure in src/main.rs lines
386-412: a uniform roll in 0..=99 either selects no drop (roll ≥ 30) or one
treasure kind from the branch ladder on the roll value. -/
def maybe_drop_kind (roll : ℕ) : Option TreasureKind :=
  if roll ≥ 30 then none
  else if roll < 3 then some TreasureKind.MaxLifePermanent
  else if roll < 8 then some TreasureKind.BulletUpgradePermanent
  else if roll < 14 then some TreasureKind.InvincibleTimed
  else if roll < 21 then some TreasureKind.LaserTimed
  else if roll < 27 then some TreasureKind.SpreadTimed
  else some TreasureKind.LifePlus

/-- Number of the 100 equally likely rolls that yield the given treasure kind. -/
def band_width (k : TreasureKind) : ℕ :=
  ((List.range 100).filter (fun r => maybe_drop_kind r = some k)).length

/-- Player-bullet vs enemy scan, from the inner loop of the collision pass in
src/main.rs lines 621-629: walk the enemies in collection order; at the first
enemy whose rectangle the bullet circle hits, subtract the damage from that
enemy's hp and stop (the Bool result is true when the bullet was consumed). -/
def damage_first (pos : Vec2) (radius : ℚ) (damage : ℤ) :
    List Enemy → List Enemy × Bool
  | [] => ([], false)
  | e :: rest =>
      if circle_hits_rect pos radius e.rect then
        ({ e with hp := e.hp - damage } :: rest, true)
      else
        let r := damage_first pos radius damage rest
        (e :: r.1, r.2)

/-- One bullet's step of the collision pass, from src/main.rs lines 611-634.
State: (enemies, reversed alive flags, player_hit).  A player bullet damages
the first enemy it hits via damage_first; an enemy bullet tests the player
rectangle. -/
def bullet_step (player_rect : Rect) (st : List Enemy × List Bool × Bool)
    (b : Bullet) : List Enemy × List Bool × Bool :=
  if b.from_player then
    let r := damage_first b.pos b.radius b.damage st.1
    (r.1, (!r.2) :: st.2.1, st.2.2)
  else if circle_hits_rect b.pos b.radius player_rect then
    (st.1, false :: st.2.1, true)
  else
    (st.1, true :: st.2.1, st.2.2)

/-- Whole-frame collision pass over all bullets, from src/main.rs lines
608-634: fold bullet_step over the bullet list in collection order. -/
def collision_pass (player_rect : Rect) (enemies : List Enemy)
    (bullets : List Bullet) : List Enemy × List Bool × Bool :=
  bullets.foldl (bullet_step player_rect) (enemies, [], false)

/-- Damage application and run-end finalization, from src/main.rs lines
696-709: if the player was hit this frame and is not invincible, decrement
lives and grant a 0.9 s invincibility window; when lives reach 0, record the
score to the leaderboard exactly once (guarded by just_saved_score) and
signal run over. -/
def update_damage (now : ℚ) (player_hit : Bool) (g : Game) (lb : Leaderboard)
    (username : String) : Game × Leaderboard × Bool :=
  if player_hit && !(g.player.isInvincible now) then
    let player := { g.player with
      lives := g.player.lives - 1
      invincible_until := now + 9/10 }
    if player.lives ≤ 0 then
      if !g.just_saved_score then
        let lb := record_score lb username g.score
        ({ g with player := player, just_saved_score := true }, lb, true)
      else
        ({ g with player := player }, lb, true)
    else
      ({ g with player := player }, lb, false)
  else
    (g, lb, false)

/-- State of one stored file as seen by the save store: the file may be
absent, readable with some text content, or present but failing to read
(an I/O error from read_to_string). -/
inductive FileState where
  | absent
  | readable (text : String)
  | unreadable
deriving Repr, DecidableEq

/-- Profile load, from SaveStore::load_profile in src/save.rs lines 81-92:
absent file gives Ok(None); a read error propagates (the question-mark
operator); unparsable text gives Ok(None).  The serde_json parser is the
external collaborator, passed in as a function. -/
def load_profile (parse : String → Option PlayerProfile) (fs : FileState) :
    Except Unit (Option PlayerProfile) :=
  match fs with
  | FileState.absent => Except.ok none
  | FileState.unreadable => Except.error ()
  | FileState.readable text =>
      match parse text with
      | some v => Except.ok (some v)
      | none => Except.ok none

/-- Leaderboard load, from SaveStore::load_leaderboard in src/save.rs lines
102-113: absent file gives the empty default; a read error propagates;
unparsable text gives the default. -/
def load_leaderboard (parse : String → Option Leaderboard) (fs : FileState) :
    Except Unit Leaderboard :=
  match fs with
  | FileState.absent => Except.ok ⟨[]⟩
  | FileState.unreadable => Except.error ()
  | FileState.readable text =>
      match parse text with
      | some v => Except.ok v
      | none => Except.ok ⟨[]⟩

/-- Filesystem state for the atomic-write algorithm: the contents (if any) at
the target path and at the temporary path. -/
structure Store where
  target : Option String
  tmp : Option String
deriving Repr, DecidableEq

/-- Step 1 of write_json_atomic (src/save.rs line 130): fs::write the full
serialized content to the temporary path. -/
def fs_write_tmp (content : String) (s : Store) : Store :=
  { s with tmp := some content }

/-- Step 2 of write_json_atomic (src/save.rs lines 131-133): if the target
path exists, fs::remove_file it. -/
def fs_remove_target (s : Store) : Store :=
  if s.target.isSome then { s with target := none } else s

/-- Step 3 of write_json_atomic (src/save.rs line 134): fs::rename the
temporary path onto the target path. -/
def fs_rename_tmp (s : Store) : Store :=
  { target := s.tmp, tmp := none }

/-- The three filesystem steps of write_json_atomic in src/save.rs lines
124-136, in program order. -/
def write_json_atomic_steps (content : String) : List (Store → Store) :=
  [fs_write_tmp content, fs_remove_target, fs_rename_tmp]

/-- Filesystem state after the first k steps of write_json_atomic — the state
an interruption after step k would leave behind. -/
def write_atomic_after (s0 : Store) (content : String) (k : ℕ) : Store :=
  ((write_json_atomic_steps content).take k).foldl (fun s f => f s) s0

/-- Claim C10: for every PlayerProfile input, including out-of-range values
that load_profile deserializes without validation (bullet_level 0 or 7,
max_lives 0), Game::new yields a playable run: base_bullet_level is clamped
into 1..3, max_lives is the profile value floored at 1 (hence at least 1),
and lives equals max_lives. -/
theorem c10_game_new_playable (profile : PlayerProfile) :
    1 ≤ (Game.new profile).player.base_bullet_level ∧
    (Game.new profile).player.base_bullet_level ≤ 3 ∧
    (Game.new profile).player.max_lives = ↑(max profile.permanent.max_lives 1) ∧
    1 ≤ (Game.new profile).player.max_lives ∧
    (Game.new profile).player.lives = (Game.new profile).player.max_lives := by
  refine ⟨?_, ?_, rfl, ?_, rfl⟩
  · show 1 ≤ min (max profile.permanent.bullet_level 1) 3
    exact le_min (le_max_right _ _) (by norm_num)
  · show min (max profile.permanent.bullet_level 1) 3 ≤ 3
    exact min_le_right _ _
  · show (1 : ℤ) ≤ ↑(max profile.permanent.max_lives 1)
    exact_mod_cast le_max_right profile.permanent.max_lives 1

/-- Claim C3: the resolved bullet mode follows strict precedence: an unexpired
temp_mode wins regardless of manual_mode and base_bullet_level; else a set
manual_mode wins; else the mode is derived from base_bullet_level as
1 to Normal, 2 to Double, 3 or more to Triple. -/
theorem c3_bullet_mode_precedence (p : Player) (now : ℚ) :
    (∀ m until_, p.temp_mode = some (m, until_) → now ≤ until_ →
      p.bullet_mode now = m) ∧
    ((∀ m until_, p.temp_mode = some (m, until_) → until_ < now) →
      (∀ m, p.manual_mode = some m → p.bullet_mode now = m) ∧
      (p.manual_mode = none →
        (p.base_bullet_level = 1 → p.bullet_mode now = BulletMode.Normal) ∧
        (p.base_bullet_level = 2 → p.bullet_mode now = BulletMode.Double) ∧
        (3 ≤ p.base_bullet_level → p.bullet_mode now = BulletMode.Triple))) := by
  have tail_manual : ∀ m, p.manual_mode = some m → p.bullet_mode_tail = m := by
    intro m hm
    simp [Player.bullet_mode_tail, hm]
  have tail_base : p.manual_mode = none →
      (p.base_bullet_level = 1 → p.bullet_mode_tail = BulletMode.Normal) ∧
      (p.base_bullet_level = 2 → p.bullet_mode_tail = BulletMode.Double) ∧
      (3 ≤ p.base_bullet_level → p.bullet_mode_tail = BulletMode.Triple) := by
    intro hm
    refine ⟨?_, ?_, ?_⟩
    · intro h1
      simp [Player.bullet_mode_tail, hm, h1]
    · intro h2
      simp [Player.bullet_mode_tail, hm, h2]
    · intro h3
      obtain ⟨k, hk⟩ : ∃ k, p.base_bullet_level = k + 3 := ⟨p.base_bullet_level - 3, by omega⟩
      simp [Player.bullet_mode_tail, hm, hk]
  have tail_eq : (∀ m until_, p.temp_mode = some (m, until_) → until_ < now) →
      p.bullet_mode now = p.bullet_mode_tail := by
    intro hexp
    match htm : p.temp_mode with
    | none => simp [Player.bullet_mode, htm]
    | some (m0, u0) =>
        have hu := hexp m0 u0 htm
        simp [Player.bullet_mode, htm, not_le.mpr hu]
  refine ⟨?_, ?_⟩
  · intro m until_ htemp hle
    simp [Player.bullet_mode, htemp, hle]
  · intro hexp
    rw [tail_eq hexp]
    exact ⟨tail_manual, tail_base⟩

/-- Witness for c3_bullet_mode_precedence at a concrete player: an unexpired
Laser temp_mode beats a set manual_mode, and with temp expired the manual
mode wins. -/
theorem c3_bullet_mode_precedence_witness :
    (Player.mk ⟨0, 0⟩ ⟨32, 40⟩ 3 3 320 0 (14/100) 0 1
        (some BulletMode.Double) (some (BulletMode.Laser, 10))).bullet_mode 5 =
      BulletMode.Laser ∧
    (Player.mk ⟨0, 0⟩ ⟨32, 40⟩ 3 3 320 0 (14/100) 0 1
        (some BulletMode.Double) (some (BulletMode.Laser, 10))).bullet_mode 11 =
      BulletMode.Double := by
  constructor
  · exact (c3_bullet_mode_precedence _ 5).1 BulletMode.Laser 10 rfl (by norm_num)
  · exact ((c3_bullet_mode_precedence _ 11).2
      (by intro m u h; cases h; norm_num)).1 BulletMode.Double rfl

/-- The leaderboard invariant: at most 20 entries, sorted by score descending. -/
def lb_invariant (lb : Leaderboard) : Prop :=
  lb.entries.length ≤ 20 ∧ lb.entries.Pairwise (fun a b => b.score ≤ a.score)

/-- The score_desc comparator is transitive. -/
lemma score_desc_trans (a b c : ScoreEntry) :
    score_desc a b → score_desc b c → score_desc a c := by
  simp [score_desc]
  omega

/-- The score_desc comparator is total. -/
lemma score_desc_total (a b : ScoreEntry) : score_desc a b || score_desc b a := by
  simp [score_desc]
  omega

/-- One record_score call establishes the leaderboard invariant outright. -/
lemma record_score_invariant (lb : Leaderboard) (u : String) (s : ℕ) :
    lb_invariant (record_score lb u s) := by
  constructor
  · simp [record_score]
  · have hs := List.sorted_mergeSort score_desc_trans score_desc_total
      (lb.entries ++ [ScoreEntry.mk u s])
    have hs' : ((lb.entries ++ [ScoreEntry.mk u s]).mergeSort score_desc).Pairwise
        (fun a b => b.score ≤ a.score) := by
      refine hs.imp ?_
      intro a b h
      simpa [score_desc] using h
    exact hs'.sublist (List.take_sublist _ _)

/-- Claim C4: for every starting leaderboard satisfying the invariant and
every sequence of record_score calls, the leaderboard afterwards has at most
20 entries sorted by score descending; each call appends one entry, re-sorts
descending, and truncates to the highest 20. -/
theorem c4_record_score_sequence (lb : Leaderboard) (calls : List (String × ℕ))
    (h : lb_invariant lb) :
    lb_invariant (calls.foldl (fun l c => record_score l c.1 c.2) lb) ∧
    (∀ l u s, record_score l u s =
      ⟨((l.entries ++ [ScoreEntry.mk u s]).mergeSort score_desc).take 20⟩) := by
  refine ⟨?_, fun l u s => rfl⟩
  induction calls generalizing lb with
  | nil => exact h
  | cons c rest ih =>
      exact ih (record_score lb c.1 c.2) (record_score_invariant lb c.1 c.2)

/-- Witness for c4_record_score_sequence: two concrete calls on the empty
leaderboard end sorted descending within the cap. -/
theorem c4_record_score_sequence_witness :
    lb_invariant
      (([("ann", 5), ("bob", 9)] : List (String × ℕ)).foldl
        (fun l c => record_score l c.1 c.2) ⟨[]⟩) :=
  (c4_record_score_sequence ⟨[]⟩ [("ann", 5), ("bob", 9)]
    ⟨by simp, List.Pairwise.nil⟩).1

/-- Iterated treasure pickups: fold apply_treasure over a list of kinds,
threading the profile and the live player. -/
def fold_treasures (now : ℚ) (st : PlayerProfile × Player)
    (ks : List TreasureKind) : PlayerProfile × Player :=
  ks.foldl (fun st k =>
    let r := apply_treasure now st.1 st.2 k
    (r.1, r.2.1)) st

/-- One apply_treasure call keeps the profile bounds and never decreases the
two permanent fields (given they start within bounds). -/
lemma apply_treasure_profile_step (now : ℚ) (profile : PlayerProfile)
    (player : Player) (k : TreasureKind)
    (hbl : 1 ≤ profile.permanent.bullet_level ∧ profile.permanent.bullet_level ≤ 3)
    (hml : 1 ≤ profile.permanent.max_lives ∧ profile.permanent.max_lives ≤ 9) :
    let p := (apply_treasure now profile player k).1
    (1 ≤ p.permanent.bullet_level ∧ p.permanent.bullet_level ≤ 3) ∧
    (1 ≤ p.permanent.max_lives ∧ p.permanent.max_lives ≤ 9) ∧
    profile.permanent.bullet_level ≤ p.permanent.bullet_level ∧
    profile.permanent.max_lives ≤ p.permanent.max_lives := by
  cases k <;> simp [apply_treasure] <;> omega

/-- Claim C5: starting from a profile with bullet_level in 1..3 and max_lives
in 1..9, any sequence of permanent-treasure pickups keeps both fields within
those bounds and monotonically non-decreasing, and each single pickup sets
the field to its increment clamped at the cap. -/
theorem c5_permanent_bounds (now : ℚ) (profile : PlayerProfile)
    (player : Player) (ks : List TreasureKind)
    (hbl : 1 ≤ profile.permanent.bullet_level ∧ profile.permanent.bullet_level ≤ 3)
    (hml : 1 ≤ profile.permanent.max_lives ∧ profile.permanent.max_lives ≤ 9)
    (hperm : ∀ k ∈ ks, k = TreasureKind.BulletUpgradePermanent ∨
      k = TreasureKind.MaxLifePermanent) :
    (1 ≤ (fold_treasures now (profile, player) ks).1.permanent.bullet_level ∧
      (fold_treasures now (profile, player) ks).1.permanent.bullet_level ≤ 3) ∧
    (1 ≤ (fold_treasures now (profile, player) ks).1.permanent.max_lives ∧
      (fold_treasures now (profile, player) ks).1.permanent.max_lives ≤ 9) ∧
    profile.permanent.bullet_level ≤
      (fold_treasures now (profile, player) ks).1.permanent.bullet_level ∧
    profile.permanent.max_lives ≤
      (fold_treasures now (profile, player) ks).1.permanent.max_lives ∧
    (∀ pr pl, (apply_treasure now pr pl TreasureKind.BulletUpgradePermanent).1.permanent.bullet_level =
      min (pr.permanent.bullet_level + 1) 3) ∧
    (∀ pr pl, (apply_treasure now pr pl TreasureKind.MaxLifePermanent).1.permanent.max_lives =
      min (pr.permanent.max_lives + 1) 9) := by
  refine ⟨?_, ?_, ?_, ?_, fun pr pl => rfl, fun pr pl => rfl⟩ <;>
  · induction ks generalizing profile player with
    | nil => simp [fold_treasures] <;> omega
    | cons k rest ih =>
        have hstep := apply_treasure_profile_step now profile player k hbl hml
        have hfold : fold_treasures now (profile, player) (k :: rest) =
            fold_treasures now ((apply_treasure now profile player k).1,
              (apply_treasure now profile player k).2.1) rest := rfl
        rw [hfold]
        have ih' := ih (apply_treasure now profile player k).1
          (apply_treasure now profile player k).2.1
          ⟨hstep.1.1, hstep.1.2⟩ ⟨hstep.2.1.1, hstep.2.1.2⟩
          (fun k' hk' => hperm k' (List.mem_cons_of_mem k hk'))
        omega

/-- Witness for c5_permanent_bounds: the default profile after one bullet
upgrade and one max-life upgrade stays within bounds and grows. -/
theorem c5_permanent_bounds_witness :
    (1 ≤ (fold_treasures 0 (⟨"p", 0, 1, 3⟩, (Game.new ⟨"p", 0, 1, 3⟩).player)
        [TreasureKind.BulletUpgradePermanent, TreasureKind.MaxLifePermanent]).1.permanent.bullet_level ∧
      (fold_treasures 0 (⟨"p", 0, 1, 3⟩, (Game.new ⟨"p", 0, 1, 3⟩).player)
        [TreasureKind.BulletUpgradePermanent, TreasureKind.MaxLifePermanent]).1.permanent.bullet_level ≤ 3) ∧
    (1 ≤ (fold_treasures 0 (⟨"p", 0, 1, 3⟩, (Game.new ⟨"p", 0, 1, 3⟩).player)
        [TreasureKind.BulletUpgradePermanent, TreasureKind.MaxLifePermanent]).1.permanent.max_lives ∧
      (fold_treasures 0 (⟨"p", 0, 1, 3⟩, (Game.new ⟨"p", 0, 1, 3⟩).player)
        [TreasureKind.BulletUpgradePermanent, TreasureKind.MaxLifePermanent]).1.permanent.max_lives ≤ 9) := by
  have h := c5_permanent_bounds 0 ⟨"p", 0, ⟨1, 3⟩⟩ (Game.new ⟨"p", 0, ⟨1, 3⟩⟩).player
    [TreasureKind.BulletUpgradePermanent, TreasureKind.MaxLifePermanent]
    (by norm_num) (by norm_num) (by decide)
  exact ⟨h.1, h.2.1⟩

/-- Claim C8: the invariant lives ≤ max_lives is established by Game::new
(lives starts equal to max_lives) and preserved by every operation that
changes lives: any treasure pickup (Life-plus caps at max_lives and does not
persist; the permanent max-life pickup raises max_lives and grants one extra
life capped at the new max) and damage application (which only decrements). -/
theorem c8_lives_le_max (profile : PlayerProfile) :
    (Game.new profile).player.lives = (Game.new profile).player.max_lives ∧
    (∀ now pr pl k, pl.lives ≤ pl.max_lives →
      (apply_treasure now pr pl k).2.1.lives ≤ (apply_treasure now pr pl k).2.1.max_lives) ∧
    (∀ now pr pl, (apply_treasure now pr pl TreasureKind.LifePlus).2.2 = false ∧
      (apply_treasure now pr pl TreasureKind.LifePlus).1 = pr) ∧
    (∀ now ph g lb u, g.player.lives ≤ g.player.max_lives →
      (update_damage now ph g lb u).1.player.lives ≤
        (update_damage now ph g lb u).1.player.max_lives ∧
      (update_damage now ph g lb u).1.player.lives ≥ g.player.lives - 1) := by
  refine ⟨rfl, ?_, fun now pr pl => ⟨rfl, rfl⟩, ?_⟩
  · intro now pr pl k h
    cases k <;> simp [apply_treasure] <;> omega
  · intro now ph g lb u h
    simp only [update_damage]
    split_ifs <;> constructor <;> simp <;> omega

/-- Witness for c8_lives_le_max: a default-profile run, a Life-plus pickup at
full lives, and a damage application all keep lives at or below max_lives. -/
theorem c8_lives_le_max_witness :
    (apply_treasure 0 ⟨"p", 0, ⟨1, 3⟩⟩ (Game.new ⟨"p", 0, ⟨1, 3⟩⟩).player
      TreasureKind.LifePlus).2.1.lives ≤
    (apply_treasure 0 ⟨"p", 0, ⟨1, 3⟩⟩ (Game.new ⟨"p", 0, ⟨1, 3⟩⟩).player
      TreasureKind.LifePlus).2.1.max_lives :=
  (c8_lives_le_max ⟨"p", 0, ⟨1, 3⟩⟩).2.1 0 ⟨"p", 0, ⟨1, 3⟩⟩
    (Game.new ⟨"p", 0, ⟨1, 3⟩⟩).player TreasureKind.LifePlus (by decide)

/-- Leaderboard is untouched by update_damage once just_saved_score is set. -/
lemma update_damage_saved (now : ℚ) (ph : Bool) (g : Game) (lb : Leaderboard)
    (u : String) (h : g.just_saved_score = true) :
    (update_damage now ph g lb u).2.1 = lb := by
  simp only [update_damage, h]
  split_ifs <;> simp_all

/-- Claim C6: run-end finalization is idempotent within a run: on the frame
where lives reaches 0 exactly one leaderboard entry with the final score is
recorded and just_saved_score is set; running the damage/terminal step again
on the resulting state (any later hit, without a new Game) never appends a
second entry. -/
theorem c6_finalize_idempotent (now now2 : ℚ) (ph2 : Bool) (g : Game)
    (lb : Leaderboard) (u : String)
    (hsaved : g.just_saved_score = false)
    (hlives : g.player.lives = 1)
    (hinv : ¬ now < g.player.invincible_until) :
    (update_damage now true g lb u).2.1 = record_score lb u g.score ∧
    (update_damage now true g lb u).2.2 = true ∧
    (update_damage now true g lb u).1.just_saved_score = true ∧
    (update_damage now2 ph2 (update_damage now true g lb u).1
      (update_damage now true g lb u).2.1 u).2.1 =
      (update_damage now true g lb u).2.1 := by
  have hfirst : update_damage now true g lb u =
      ({ g with
          player := { g.player with
            lives := g.player.lives - 1,
            invincible_until := now + 9/10 },
          just_saved_score := true },
        record_score lb u g.score, true) := by
    have hc1 : (true && !(g.player.isInvincible now)) = true := by
      simp [Player.isInvincible, hinv]
    simp only [update_damage, hc1, if_true, hsaved, hlives]
    norm_num
  refine ⟨by rw [hfirst], by rw [hfirst], by rw [hfirst], ?_⟩
  apply update_damage_saved
  rw [hfirst]

/-- Witness for c6_finalize_idempotent at a concrete one-life game state. -/
theorem c6_finalize_idempotent_witness :
    (update_damage 100 true
      { (Game.new ⟨"p", 0, ⟨1, 1⟩⟩) with score := 40 } ⟨[]⟩ "p").2.1 =
      record_score ⟨[]⟩ "p" 40 ∧
    (update_damage 101 true
      (update_damage 100 true
        { (Game.new ⟨"p", 0, ⟨1, 1⟩⟩) with score := 40 } ⟨[]⟩ "p").1
      (update_damage 100 true
        { (Game.new ⟨"p", 0, ⟨1, 1⟩⟩) with score := 40 } ⟨[]⟩ "p").2.1 "p").2.1 =
      (update_damage 100 true
        { (Game.new ⟨"p", 0, ⟨1, 1⟩⟩) with score := 40 } ⟨[]⟩ "p").2.1 := by
  have h := c6_finalize_idempotent 100 101 true
    { (Game.new ⟨"p", 0, ⟨1, 1⟩⟩) with score := 40 } ⟨[]⟩ "p"
    rfl (by decide) (by norm_num [Game.new])
  exact ⟨h.1, h.2.2.2⟩

/-- Number of positions at which two enemy lists differ in hp. -/
def hp_changed_count (es es' : List Enemy) : ℕ :=
  (es.zip es').countP (fun p => decide (p.1.hp ≠ p.2.hp))

/-- A list never differs from itself in hp. -/
lemma hp_changed_count_self (es : List Enemy) : hp_changed_count es es = 0 := by
  induction es with
  | nil => rfl
  | cons e rest ih =>
      simpa [hp_changed_count, List.countP_cons] using ih

/-- Unfolding hp_changed_count over a head pair. -/
lemma hp_changed_count_cons (a b : Enemy) (l l' : List Enemy) :
    hp_changed_count (a :: l) (b :: l') =
      hp_changed_count l l' + (if a.hp = b.hp then 0 else 1) := by
  by_cases h : a.hp = b.hp <;> simp [hp_changed_count, List.countP_cons, h]

/-- Claim C7: in the collision pass each player-owned bullet reduces at most
one enemy's HP — even when its circle overlaps several enemy rectangles it
damages only the first enemy in collection order that it hits, is marked
consumed there, and is tested against no further enemies; with no hit the
enemy list is untouched. -/
theorem c7_bullet_damages_at_most_one (pos : Vec2) (radius : ℚ) (dmg : ℤ) :
    (∀ es, ((damage_first pos radius dmg es).1).length = es.length) ∧
    (∀ es, hp_changed_count es (damage_first pos radius dmg es).1 ≤ 1) ∧
    (∀ es₁ e es₂, (∀ e' ∈ es₁, circle_hits_rect pos radius e'.rect = false) →
      circle_hits_rect pos radius e.rect = true →
      damage_first pos radius dmg (es₁ ++ e :: es₂) =
        (es₁ ++ { e with hp := e.hp - dmg } :: es₂, true)) ∧
    (∀ es, (∀ e ∈ es, circle_hits_rect pos radius e.rect = false) →
      damage_first pos radius dmg es = (es, false)) ∧
    (∀ pr st (b : Bullet), b.from_player = true →
      (bullet_step pr st b).1 = (damage_first b.pos b.radius b.damage st.1).1 ∧
      (bullet_step pr st b).2.1 =
        (!(damage_first b.pos b.radius b.damage st.1).2) :: st.2.1) := by
  refine ⟨?_, ?_, ?_, ?_, ?_⟩
  · intro es
    induction es with
    | nil => rfl
    | cons e rest ih =>
        by_cases hhit : circle_hits_rect pos radius e.rect = true
        · simp [damage_first, hhit]
        · simp only [Bool.not_eq_true] at hhit
          simp [damage_first, hhit, ih]
  · intro es
    induction es with
    | nil => simp [damage_first, hp_changed_count]
    | cons e rest ih =>
        by_cases hhit : circle_hits_rect pos radius e.rect = true
        · simp only [damage_first, if_pos hhit]
          rw [hp_changed_count_cons, hp_changed_count_self]
          split_ifs <;> omega
        · simp only [Bool.not_eq_true] at hhit
          simp only [damage_first, hhit, Bool.false_eq_true, if_false]
          rw [hp_changed_count_cons]
          simpa using ih
  · intro es₁ e es₂ hmiss hhit
    induction es₁ with
    | nil => simp [damage_first, hhit]
    | cons a t ih =>
        have ha : circle_hits_rect pos radius a.rect = false :=
          hmiss a (List.mem_cons_self a t)
        have ih' := ih (fun e' he' => hmiss e' (List.mem_cons_of_mem a he'))
        simp [damage_first, ha, ih']
  · intro es hmiss
    induction es with
    | nil => rfl
    | cons e rest ih =>
        have he : circle_hits_rect pos radius e.rect = false :=
          hmiss e (List.mem_cons_self e rest)
        have ih' := ih (fun e' he' => hmiss e' (List.mem_cons_of_mem e he'))
        simp [damage_first, he, ih']
  · intro pr st b hb
    constructor <;> simp [bullet_step, hb]

/-- Witness for c7_bullet_damages_at_most_one: a bullet circle that overlaps
both enemy rectangles simultaneously damages only the first enemy. -/
theorem c7_bullet_damages_at_most_one_witness :
    circle_hits_rect ⟨0, 0⟩ 5 (Enemy.rect ⟨⟨0, 0⟩, ⟨2, 2⟩, ⟨0, 0⟩, 1, 0⟩) = true ∧
    circle_hits_rect ⟨0, 0⟩ 5 (Enemy.rect ⟨⟨3, 0⟩, ⟨2, 2⟩, ⟨0, 0⟩, 2, 0⟩) = true ∧
    damage_first ⟨0, 0⟩ 5 1
        [⟨⟨0, 0⟩, ⟨2, 2⟩, ⟨0, 0⟩, 1, 0⟩, ⟨⟨3, 0⟩, ⟨2, 2⟩, ⟨0, 0⟩, 2, 0⟩] =
      ([⟨⟨0, 0⟩, ⟨2, 2⟩, ⟨0, 0⟩, 0, 0⟩, ⟨⟨3, 0⟩, ⟨2, 2⟩, ⟨0, 0⟩, 2, 0⟩], true) := by
  have h1 : circle_hits_rect ⟨0, 0⟩ 5 (Enemy.rect ⟨⟨0, 0⟩, ⟨2, 2⟩, ⟨0, 0⟩, 1, 0⟩) = true := by
    norm_num [circle_hits_rect, clampQ, Enemy.rect, min_def, max_def]
  have h2 : circle_hits_rect ⟨0, 0⟩ 5 (Enemy.rect ⟨⟨3, 0⟩, ⟨2, 2⟩, ⟨0, 0⟩, 2, 0⟩) = true := by
    norm_num [circle_hits_rect, clampQ, Enemy.rect, min_def, max_def]
  refine ⟨h1, h2, ?_⟩
  have h := (c7_bullet_damages_at_most_one ⟨0, 0⟩ 5 1).2.2.1 []
    ⟨⟨0, 0⟩, ⟨2, 2⟩, ⟨0, 0⟩, 1, 0⟩ [⟨⟨3, 0⟩, ⟨2, 2⟩, ⟨0, 0⟩, 2, 0⟩]
    (by simp) h1
  simpa using h

/-- Counterexample to claim C9: the claim says the two permanent upgrade
kinds are the rarest kinds in the drop table, but the non-permanent LifePlus
band (3 of 100 rolls) is strictly narrower than the permanent
BulletUpgradePermanent band (5 of 100 rolls). -/
theorem c9_counterexample :
    band_width TreasureKind.LifePlus < band_width TreasureKind.BulletUpgradePermanent ∧
    band_width TreasureKind.LifePlus = 3 ∧
    band_width TreasureKind.BulletUpgradePermanent = 5 := by
  decide

/-- Claim C9 as amended: the drop is decided by a single roll over 0..99
mapped through fixed disjoint contiguous bands, the majority band (70 of 100
rolls) selects no drop, and the rarest kinds are MaxLifePermanent and
LifePlus (3 rolls each) — BulletUpgradePermanent has 5. -/
theorem c9_drop_table_bands :
    (∀ roll, roll < 100 →
      ((maybe_drop_kind roll = none ↔ 30 ≤ roll) ∧
       (maybe_drop_kind roll = some TreasureKind.MaxLifePermanent ↔ roll < 3) ∧
       (maybe_drop_kind roll = some TreasureKind.BulletUpgradePermanent ↔
         3 ≤ roll ∧ roll < 8) ∧
       (maybe_drop_kind roll = some TreasureKind.InvincibleTimed ↔
         8 ≤ roll ∧ roll < 14) ∧
       (maybe_drop_kind roll = some TreasureKind.LaserTimed ↔
         14 ≤ roll ∧ roll < 21) ∧
       (maybe_drop_kind roll = some TreasureKind.SpreadTimed ↔
         21 ≤ roll ∧ roll < 27) ∧
       (maybe_drop_kind roll = some TreasureKind.LifePlus ↔
         27 ≤ roll ∧ roll < 30))) ∧
    ((List.range 100).countP (fun r => (maybe_drop_kind r).isNone)) = 70 ∧
    band_width TreasureKind.MaxLifePermanent = 3 ∧
    band_width TreasureKind.BulletUpgradePermanent = 5 ∧
    band_width TreasureKind.InvincibleTimed = 6 ∧
    band_width TreasureKind.LaserTimed = 7 ∧
    band_width TreasureKind.SpreadTimed = 6 ∧
    band_width TreasureKind.LifePlus = 3 := by
  decide

/-- Witness for c9_drop_table_bands: roll 2 is a MaxLifePermanent drop and
roll 50 is no drop. -/
theorem c9_drop_table_bands_witness :
    maybe_drop_kind 2 = some TreasureKind.MaxLifePermanent ∧
    maybe_drop_kind 50 = none :=
  ⟨(c9_drop_table_bands.1 2 (by norm_num)).2.1.mpr (by norm_num),
   (c9_drop_table_bands.1 50 (by norm_num)).1.mpr (by norm_num)⟩

/-- Counterexample to claim C1: write_json_atomic is not delete-free — when
the target exists, it is removed before the rename, so an interruption after
step 2 leaves the target holding neither the old nor the new content (the
target does not exist at that point). -/
theorem c1_counterexample :
    (write_atomic_after ⟨some "old", none⟩ "new" 2).target = none ∧
    (none : Option String) ≠ some "old" ∧
    (none : Option String) ≠ some "new" := by
  refine ⟨rfl, by simp, by simp⟩

/-- Claim C1 as amended: the full serialized content is first written to a
temporary path; then, when a target exists, it is removed and the temporary
file is renamed onto the target.  At every interruption point the target is
the complete old content, the complete new content, or absent — never a
partial file — and whenever the target is absent the complete new content is
already on disk at the temporary path; after all steps the target holds the
new content. -/
theorem c1_write_atomic_never_truncated (old content : String) (k : ℕ)
    (hk : k ≤ 3) :
    ((write_atomic_after ⟨some old, none⟩ content k).target = some old ∨
     (write_atomic_after ⟨some old, none⟩ content k).target = some content ∨
     ((write_atomic_after ⟨some old, none⟩ content k).target = none ∧
      (write_atomic_after ⟨some old, none⟩ content k).tmp = some content)) ∧
    (k = 3 → (write_atomic_after ⟨some old, none⟩ content k).target = some content) := by
  interval_cases k <;>
    simp [write_atomic_after, write_json_atomic_steps, fs_write_tmp,
      fs_remove_target, fs_rename_tmp]

/-- Witness for c1_write_atomic_never_truncated at the completed write. -/
theorem c1_write_atomic_never_truncated_witness :
    (write_atomic_after ⟨some "old", none⟩ "new" 3).target = some "new" :=
  (c1_write_atomic_never_truncated "old" "new" 3 (by norm_num)).2 rfl

/-- Counterexample to claim C2: a store state in which the profile and
leaderboard files exist but reading them fails makes both load functions
return an error — the read I/O error propagates to the caller instead of
degrading to the defaults. -/
theorem c2_counterexample :
    load_profile (fun _ => none) FileState.unreadable = Except.error () ∧
    load_leaderboard (fun _ => none) FileState.unreadable = Except.error () :=
  ⟨rfl, rfl⟩

/-- Claim C2 as amended: absence of the file and unparsable content degrade
to the documented defaults (none for the profile, the empty leaderboard),
but an I/O error while reading an existing file propagates to the caller. -/
theorem c2_load_degrades_except_io (parse : String → Option PlayerProfile)
    (parseLb : String → Option Leaderboard) (text : String) :
    load_profile parse FileState.absent = Except.ok none ∧
    (parse text = none →
      load_profile parse (FileState.readable text) = Except.ok none) ∧
    (∀ v, parse text = some v →
      load_profile parse (FileState.readable text) = Except.ok (some v)) ∧
    load_profile parse FileState.unreadable = Except.error () ∧
    load_leaderboard parseLb FileState.absent = Except.ok ⟨[]⟩ ∧
    (parseLb text = none →
      load_leaderboard parseLb (FileState.readable text) = Except.ok ⟨[]⟩) ∧
    load_leaderboard parseLb FileState.unreadable = Except.error () := by
  refine ⟨rfl, ?_, ?_, rfl, rfl, ?_, rfl⟩
  · intro h
    simp [load_profile, h]
  · intro v h
    simp [load_profile, h]
  · intro h
    simp [load_leaderboard, h]

/-- Witness for c2_load_degrades_except_io with a parser that rejects the
concrete text. -/
theorem c2_load_degrades_except_io_witness :
    load_profile (fun _ => none) (FileState.readable "garbage") = Except.ok none :=
  (c2_load_degrades_except_io (fun _ => none) (fun _ => none) "garbage").2.1 rfl

end Wingfall
